import Mathlib

/-!
A shallow embedding of `lhd.py`: the LiDARHD catalog and retrieval utility.
External geometry operations (shapely / geopandas) are abstracted as a
structure of operations `GeoOps`; the local folder is a list of named files in
glob enumeration order; the network is a function from request URLs to
responses; the concurrent page fetches of the catalog build are given as the
list of their results in completion order.  Python exceptions are modelled by
`PyErr`, keeping the raising class and the message of each raise site.
-/

namespace Lhd

/-- The WFS base URL of the catalog service. -/
def URL_LHD : String :=
  "https://data.geopf.fr/private/wfs/wfs?apikey=interface_catalogue&SERVICE=WFS&REQUEST=GetFeature&VERSION=2.0.0&TYPENAMES=IGNF_LIDAR-HD_TA:nuage-dalle"

/-- Python exception values: the class and the message of each raise site. -/
inductive PyErr : Type where
  | valueError (msg : String)
  | fileNotFoundError (msg : String)
  | typeError (msg : String)
  | nameError (msg : String)
deriving DecidableEq

/-- The Python class name of an exception: a caller branching on the kind of
the error alone can distinguish exactly these. -/
def PyErr.kind : PyErr → String
  | .valueError _ => "ValueError"
  | .fileNotFoundError _ => "FileNotFoundError"
  | .typeError _ => "TypeError"
  | .nameError _ => "NameError"

/-- Abstract interface to the external geometry library: coordinate
transformation between reference frames (`to_crs`), areal union
(`union_all`), intersection test and well-known-text serialisation. -/
structure GeoOps (Geom : Type) where
  transform : Int → Int → Geom → Geom
  unionAll : List Geom → Geom
  intersects : Geom → Geom → Bool
  wkt : Geom → String

variable {Geom : Type}

/-- A GeoDataFrame: a coordinate reference system and a geometry column. -/
structure GeoDataFrame (Geom : Type) where
  crs : Int
  geoms : List Geom
deriving DecidableEq

/-- `gdf.to_crs(target)`: reproject every geometry into the target frame.
Pure: the frame of the caller is not mutated. -/
def GeoDataFrame.toCrs (ops : GeoOps Geom) (gdf : GeoDataFrame Geom) (target : Int) :
    GeoDataFrame Geom :=
  { crs := target, geoms := gdf.geoms.map (ops.transform gdf.crs target) }

/-- A raw catalog record as returned by the feature service: download URL,
the internal `gml_id` of the service, tile footprint. -/
structure RawRow (Geom : Type) where
  url : String
  gml_id : Option String
  geometry : Geom
deriving DecidableEq

/-- A catalog record as stored locally: `gml_id` dropped, derived `bloc`
identifier added. -/
structure Row (Geom : Type) where
  url : String
  bloc : String
  geometry : Geom
deriving DecidableEq

/-- A stored catalog: reference frame plus the ordered records. -/
structure DB (Geom : Type) where
  crs : Int
  rows : List (Row Geom)
deriving DecidableEq

/-- `db.to_crs(target)` on a catalog: reproject the geometry column. -/
def dbToCrs (ops : GeoOps Geom) (db : DB Geom) (target : Int) : DB Geom :=
  { crs := target,
    rows := db.rows.map (fun r =>
      { url := r.url, bloc := r.bloc,
        geometry := ops.transform db.crs target r.geometry }) }

/-- Python `str.split(sep)` for a one-character separator, on a character
list: always returns at least one (possibly empty) piece. -/
def splitChar (sep : Char) : List Char → List (List Char)
  | [] => [[]]
  | c :: rest =>
    match splitChar sep rest with
    | [] => if c = sep then [[], []] else [[c]]
    | h :: t => if c = sep then [] :: h :: t else (c :: h) :: t

/-- `url2bloc` applied to one URL: `x.split("/")[-1].split(".")[0]`, the final
path segment with everything from the first dot stripped. -/
def url2bloc (url : String) : String :=
  let last := (splitChar '/' url.toList).getLastD []
  String.mk ((splitChar '.' last).headD [])

/-- Python `str.endswith`, on character lists. -/
def listEndsWith (cs suf : List Char) : Bool :=
  Nat.ble suf.length cs.length && (cs.drop (cs.length - suf.length) == suf)

/-- Python `str.endswith`. -/
def strEndsWith (s suf : String) : Bool :=
  listEndsWith s.toList suf.toList

/-- Whether the second list is an initial segment of the first. -/
def listHeadMatches : List Char → List Char → Bool
  | _, [] => true
  | [], _ :: _ => false
  | c :: cs, d :: ds => c == d && listHeadMatches cs ds

/-- Python `str.startswith`. -/
def strHeadMatches (s pat : String) : Bool :=
  listHeadMatches s.toList pat.toList

/-- The glob pattern of `_get_database_path`:
`LidarHD_tiles_database*.gpkg`. -/
def matchesCatalogPattern (name : String) : Bool :=
  strHeadMatches name "LidarHD_tiles_database" && strEndsWith name ".gpkg"

/-- The dated catalog filename
`LidarHD_tiles_database_<YYYY-MM-DD>.gpkg`. -/
def dbFileName (today : String) : String :=
  "LidarHD_tiles_database_" ++ today ++ ".gpkg"

/-- The folder: named files in the (arbitrary) order glob enumerates them. -/
abbrev FS (Geom : Type) := List (String × DB Geom)

/-- `db.to_file(name)`: overwrite the file in place when the name exists,
otherwise create it (appended at the end of the enumeration order). -/
def writeFile (fs : FS Geom) (name : String) (db : DB Geom) : FS Geom :=
  if (fs.map Prod.fst).contains name then
    fs.map (fun entry => if entry.1 == name then (name, db) else entry)
  else
    fs ++ [(name, db)]

/-- Read the content of a named file, if it exists. -/
def readFileContent (fs : FS Geom) (name : String) : Option (DB Geom) :=
  (fs.find? (fun entry => entry.1 == name)).map Prod.snd

/-- The request URL `fetch_chunk` builds:
`url + "&STARTINDEX={start_index}&COUNT={ntiles}&SRSNAME=urn:ogc:def:crs:EPSG::2154"`. -/
def fetchUrl (url : String) (ntiles start_index : Int) : String :=
  url ++ "&STARTINDEX=" ++ toString start_index ++ "&COUNT=" ++ toString ntiles
    ++ "&SRSNAME=urn:ogc:def:crs:EPSG::2154"

/-- `fetch_chunk(url, ntiles, start_index)`: perform the request through the
ambient network `net`; any exception is swallowed into `none`, and an empty
page is also returned as `none` (`gdf if not gdf.empty else None`). -/
def fetch_chunk (net : String → Except String (List (RawRow Geom)))
    (url : String) (ntiles start_index : Int) : Option (List (RawRow Geom)) :=
  match net (fetchUrl url ntiles start_index) with
  | .error _ => none
  | .ok gdf => if gdf.isEmpty then none else some gdf

/-- One raw record transformed for storage: the `bloc` column derived from
the URL is added and the `gml_id` column is dropped. -/
def rawToRow (r : RawRow Geom) : Row Geom :=
  { url := r.url, bloc := url2bloc r.url, geometry := r.geometry }

/-- The catalog assembled from the non-absent page results, in completion
order: `pd.concat(data_chunks)`, then `bloc` added and `gml_id` dropped.
Pages are requested in EPSG 2154. -/
def builtDB (pageResults : List (Option (List (RawRow Geom)))) : DB Geom :=
  { crs := 2154, rows := ((pageResults.filterMap id).flatten).map rawToRow }

/-- The in-memory state of a `LiDARHD` object after construction. -/
structure LiDARHDState (Geom : Type) where
  database_path : Option String
  database : Option (DB Geom)
deriving DecidableEq

/-- The outcome of `_download_database`: the folder afterwards, the returned
path, and how many page fetches were submitted. -/
structure DlResult (Geom : Type) where
  fs : FS Geom
  path : Option String
  fetches : Nat
deriving DecidableEq

/-- The error of `_get_clouds_intersecting` when no catalog is loaded. -/
def errNotLoaded : PyErr :=
  .valueError "Database is not loaded. Call get_database first."

/-- The error of `download` for an output path without the `.laz` extension. -/
def errInvalidArgument : PyErr :=
  .valueError "Download path must end with .laz to indicate a compressed LAS file."

/-- The error of `download` when no catalog tile intersects the area of
interest. -/
def errEmptyResult : PyErr :=
  .valueError "No intersecting tiles found for the provided GeoDataFrame."

/-- The error of `_read_database` when the file to load is missing. -/
def errNotFound (p : String) : PyErr :=
  .fileNotFoundError ("Database file not found at: " ++ p)

namespace LiDARHD

/-- `_get_database_path`: the first file in the folder matching the glob
pattern `LidarHD_tiles_database*.gpkg` (`files[0]`), or `None`. -/
def get_database_path (fs : FS Geom) : Option String :=
  ((fs.map Prod.fst).filter matchesCatalogPattern).head?

/-- `_check_database`: whether a catalog file is already in the folder. -/
def check_database (fs : FS Geom) : Bool :=
  (get_database_path fs).isSome

/-- The load step of `_read_database`: fail with `FileNotFoundError` when the
file is missing, otherwise `gpd.read_file(path).to_crs(2154)`. -/
def load_database_file (ops : GeoOps Geom) (fs : FS Geom) (p : String) :
    Except PyErr (DB Geom) :=
  match readFileContent fs p with
  | none => .error (errNotFound p)
  | some db => .ok (dbToCrs ops db 2154)

/-- `_read_database(path)`: default the path to `_get_database_path()`, fail
with `TypeError` on `Path(None)`, then load the file. -/
def read_database (ops : GeoOps Geom) (fs : FS Geom) :
    Option String → Except PyErr (DB Geom)
  | none =>
    match get_database_path fs with
    | none => .error (.typeError "expected str or os.PathLike, not NoneType")
    | some p => load_database_file ops fs p
  | some p => load_database_file ops fs p

/-- `_download_database(overwrite)`: reuse the existing catalog when present
and `overwrite` is false (no fetches); otherwise submit every page fetch,
collect the non-absent results, and persist their concatenation to the dated
file — when every page came back absent, the unconditional `db.to_file`
raises the unbound-local `NameError` on `db`. -/
def download_database (fs : FS Geom) (overwrite : Bool) (today : String)
    (pageResults : List (Option (List (RawRow Geom)))) :
    Except PyErr (DlResult Geom) :=
  if check_database fs && !overwrite then
    .ok { fs := fs, path := get_database_path fs, fetches := 0 }
  else
    if (pageResults.filterMap id).isEmpty then
      .error (.nameError "db")
    else
      .ok { fs := writeFile fs (dbFileName today) (builtDB pageResults),
            path := get_database_path (writeFile fs (dbFileName today) (builtDB pageResults)),
            fetches := pageResults.length }

/-- `__init__(folder_path, overwrite)`: resolve the catalog on disk, then
load it; the loaded catalog is held (non-absent) in the state. -/
def init (ops : GeoOps Geom) (fs : FS Geom) (overwrite : Bool) (today : String)
    (pageResults : List (Option (List (RawRow Geom)))) :
    Except PyErr (LiDARHDState Geom × FS Geom) :=
  match download_database fs overwrite today pageResults with
  | .error e => .error e
  | .ok r =>
    match read_database ops r.fs r.path with
    | .error e => .error e
    | .ok db => .ok ({ database_path := r.path, database := some db }, r.fs)

/-- `_get_clouds_intersecting(gdf)`: fail when no catalog is loaded;
reproject a copy of the area of interest into EPSG 2154, form the union of
its geometries, and keep exactly the catalog rows intersecting that union. -/
def get_clouds_intersecting (ops : GeoOps Geom) (self : LiDARHDState Geom)
    (gdf : GeoDataFrame Geom) : Except PyErr (List (Row Geom)) :=
  match self.database with
  | none => .error errNotLoaded
  | some db =>
    let union_all := ops.unionAll (gdf.toCrs ops 2154).geoms
    .ok (db.rows.filter (fun r => ops.intersects r.geometry union_all))

end LiDARHD

/-- One stage of the PDAL pipeline description. -/
inductive Stage : Type where
  | read (filename : String) (polygon : String)
  | merge
  | write (filename : String) (compression : String)
deriving DecidableEq

/-- Whether a stage is a `readers.copc` stage. -/
def Stage.isRead : Stage → Bool
  | .read _ _ => true
  | _ => false

/-- Whether a stage is a `filters.merge` stage. -/
def Stage.isMerge : Stage → Bool
  | .merge => true
  | _ => false

/-- Whether a stage is a `writers.las` stage. -/
def Stage.isWrite : Stage → Bool
  | .write _ _ => true
  | _ => false

/-- The clip polygon `download` actually passes to every reader:
`gdf.union_all().wkt` on the GeoDataFrame of the caller as given, in its original
reference frame. -/
def downloadClipPolygon (ops : GeoOps Geom) (gdf : GeoDataFrame Geom) : String :=
  ops.wkt (ops.unionAll gdf.geoms)

/-- The clip polygon the specification describes: the well-known text of the
union of the area-of-interest geometries after reprojection into the
working reference frame of the catalog, EPSG 2154. -/
def specClipPolygon (ops : GeoOps Geom) (gdf : GeoDataFrame Geom) : String :=
  ops.wkt (ops.unionAll ((gdf.toCrs ops 2154)).geoms)

namespace LiDARHD

/-- `download(gdf, download_path)` up to pipeline construction: check the
`.laz` extension, compute the intersecting tiles (failing when none), then
assemble one clipped read stage per tile URL, a merge stage when more than
one reader exists, and a compressed write stage to the output path. -/
def download (ops : GeoOps Geom) (self : LiDARHDState Geom)
    (gdf : GeoDataFrame Geom) (download_path : String) :
    Except PyErr (List Stage) :=
  if strEndsWith download_path ".laz" = false then
    .error errInvalidArgument
  else
    match get_clouds_intersecting ops self gdf with
    | .error e => .error e
    | .ok intersecting_tiles =>
      if intersecting_tiles.isEmpty then
        .error errEmptyResult
      else
        let download_urls := intersecting_tiles.map (fun r => r.url)
        let reads := download_urls.map
          (fun u => Stage.read u (downloadClipPolygon ops gdf))
        let withMerge := if download_urls.length > 1 then reads ++ [Stage.merge] else reads
        .ok (withMerge ++ [Stage.write download_path "true"])

end LiDARHD

/-! Concrete instantiation used to evaluate the model on explicit inputs: a
geometry is a finite set of integer cells, reprojection between distinct
frames shifts the first coordinate by the difference of the frame codes,
intersection is sharing a cell, and the well-known text lists the cells. -/

/-- A toy geometry: a list of integer cells. -/
abbrev ToyGeom := List (Int × Int)

/-- Concrete geometry operations on `ToyGeom`. -/
def toyOps : GeoOps ToyGeom :=
  { transform := fun src tgt g =>
      if src == tgt then g else g.map (fun p => (p.1 + (tgt - src), p.2))
    unionAll := fun gs => gs.flatten
    intersects := fun a b => a.any (fun p => b.contains p)
    wkt := fun g =>
      String.intercalate ", " (g.map (fun p => toString p.1 ++ " " ++ toString p.2)) }

/-- A first catalog row. -/
def rowT1 : Row ToyGeom :=
  { url := "https://x/t1.copc.laz", bloc := "t1", geometry := [(0, 0), (5, 5)] }

/-- A second catalog row. -/
def rowT2 : Row ToyGeom :=
  { url := "https://x/t2.copc.laz", bloc := "t2", geometry := [(0, 0)] }

/-- A two-tile catalog in the working frame. -/
def dbW : DB ToyGeom := { crs := 2154, rows := [rowT1, rowT2] }

/-- A constructed state holding the two-tile catalog. -/
def stW : LiDARHDState ToyGeom :=
  { database_path := some "LidarHD_tiles_database_2025-06-15.gpkg",
    database := some dbW }

/-- An area of interest already in the working frame, meeting both tiles. -/
def gdfW : GeoDataFrame ToyGeom := { crs := 2154, geoms := [[(0, 0)]] }

/-- An area of interest in the working frame, meeting no tile. -/
def gdfFar : GeoDataFrame ToyGeom := { crs := 2154, geoms := [[(99, 99)]] }

/-- An area of interest in frame 4326 whose reprojection into 2154 is the
cell (0, 0): reprojection shifts the first coordinate by 2154 - 4326. -/
def gdfC1 : GeoDataFrame ToyGeom := { crs := 4326, geoms := [[(2172, 0)]] }

/-- An old catalog content. -/
def oldDb : DB ToyGeom := { crs := 2154, rows := [rowT1] }

/-- A folder holding one dated catalog file from an earlier date. -/
def fs0 : FS ToyGeom := [("LidarHD_tiles_database_2025-01-01.gpkg", oldDb)]

/-- A raw page record for a fresh build. -/
def rawNew : RawRow ToyGeom :=
  { url := "https://x/t9.copc.laz", gml_id := some "g9", geometry := [(7, 7)] }

/-- The state and folder produced by constructing over `fs0` without
overwrite. -/
def stC10 : LiDARHDState ToyGeom × FS ToyGeom :=
  ({ database_path := some "LidarHD_tiles_database_2025-01-01.gpkg",
     database := some (dbToCrs toyOps oldDb 2154) }, fs0)

/-- The pipeline description `download` is specified to assemble for a list
of intersecting tiles: one clipped read per tile, a merge stage exactly when
more than one read exists, then one compressed write stage. -/
def expectedPipeline (ops : GeoOps Geom) (gdf : GeoDataFrame Geom)
    (tiles : List (Row Geom)) (download_path : String) : List Stage :=
  (tiles.map fun t => Stage.read t.url (downloadClipPolygon ops gdf))
    ++ (if tiles.length > 1 then [Stage.merge] else [])
    ++ [Stage.write download_path "true"]

/-! Helper lemmas about the folder model and the error paths. -/

theorem find?_update (fs : FS Geom) (name : String) (db : DB Geom)
    (hc : (fs.map Prod.fst).contains name = true) :
    (fs.map (fun entry => if entry.1 == name then (name, db) else entry)).find?
      (fun entry => entry.1 == name) = some (name, db) := by
  induction fs with
  | nil => simp at hc
  | cons e rest ih =>
    by_cases he : e.1 = name
    · have he2 : (e.1 == name) = true := beq_iff_eq.mpr he
      rw [List.map_cons, List.find?_cons]
      simp [he2]
    · have he2 : (e.1 == name) = false := beq_eq_false_iff_ne.mpr he
      have hc2 : (rest.map Prod.fst).contains name = true := by
        simp only [List.map_cons, List.contains_cons, Bool.or_eq_true] at hc
        rcases hc with h | h
        · exact absurd (beq_iff_eq.mp h).symm he
        · exact h
      rw [List.map_cons, List.find?_cons]
      simp only [he2, Bool.false_eq_true, if_false]
      exact ih hc2

theorem find?_append_new (fs : FS Geom) (name : String) (db : DB Geom)
    (hc : (fs.map Prod.fst).contains name = false) :
    (fs ++ [(name, db)]).find? (fun entry => entry.1 == name) = some (name, db) := by
  induction fs with
  | nil => simp [List.find?_cons]
  | cons e rest ih =>
    have hpair : ((e.1 == name) = false) ∧ (rest.map Prod.fst).contains name = false := by
      simp only [List.map_cons, List.contains_cons, Bool.or_eq_false_iff] at hc
      refine ⟨?_, hc.2⟩
      exact beq_eq_false_iff_ne.mpr (fun hh => (beq_eq_false_iff_ne.mp hc.1) hh.symm)
    simp [List.cons_append, List.find?_cons, hpair.1, ih hpair.2]

/-- `to_file` followed by a read of the same name returns what was written,
whether the file was overwritten in place or newly created. -/
theorem readFileContent_writeFile (fs : FS Geom) (name : String) (db : DB Geom) :
    readFileContent (writeFile fs name db) name = some db := by
  unfold readFileContent writeFile
  by_cases hc : ((fs.map Prod.fst).contains name) = true
  · rw [if_pos hc, find?_update fs name db hc]
    rfl
  · rw [if_neg hc, find?_append_new fs name db (by simpa using hc)]
    rfl

/-- A path returned by `_get_database_path` names a file that exists. -/
theorem get_database_path_readable (fs : FS Geom) (p : String)
    (h : LiDARHD.get_database_path fs = some p) :
    ∃ db, readFileContent fs p = some db := by
  unfold LiDARHD.get_database_path at h
  have hmem : p ∈ fs.map Prod.fst := by
    have h1 : p ∈ (fs.map Prod.fst).filter matchesCatalogPattern := by
      cases hfl : (fs.map Prod.fst).filter matchesCatalogPattern with
      | nil => rw [hfl] at h; cases h
      | cons q t =>
        rw [hfl] at h
        simp only [List.head?_cons, Option.some.injEq] at h
        subst h
        exact List.mem_cons_self q t
    exact (List.mem_filter.mp h1).1
  obtain ⟨entry, hent, hfst⟩ := List.mem_map.mp hmem
  have hs : (fs.find? (fun entry => entry.1 == p)).isSome = true := by
    rw [List.find?_isSome]
    exact ⟨entry, hent, by simp [hfst]⟩
  obtain ⟨q, hq⟩ := Option.isSome_iff_exists.mp hs
  refine ⟨q.2, ?_⟩
  unfold readFileContent
  rw [hq]
  rfl

/-- Loading an existing file succeeds with its reprojected content. -/
theorem load_database_file_some (ops : GeoOps Geom) (fs : FS Geom) (p : String)
    (db : DB Geom) (h : readFileContent fs p = some db) :
    LiDARHD.load_database_file ops fs p = .ok (dbToCrs ops db 2154) := by
  unfold LiDARHD.load_database_file
  rw [h]

/-- The build branch of `_download_database`: when the existing-and-reuse test
fails and at least one page returned data, the concatenated catalog is
persisted to the dated file and the first glob match is returned. -/
theorem download_database_build (fs : FS Geom) (overwrite : Bool) (today : String)
    (pageResults : List (Option (List (RawRow Geom))))
    (hcond : (LiDARHD.check_database fs && !overwrite) = false)
    (hchunks : pageResults.filterMap id ≠ []) :
    LiDARHD.download_database fs overwrite today pageResults =
      .ok { fs := writeFile fs (dbFileName today) (builtDB pageResults),
            path := LiDARHD.get_database_path
              (writeFile fs (dbFileName today) (builtDB pageResults)),
            fetches := pageResults.length } := by
  unfold LiDARHD.download_database
  rw [if_neg (by simp [hcond]), if_neg (by simp [List.isEmpty_iff, hchunks])]

/-- The only error `_get_clouds_intersecting` can raise is the not-loaded
one. -/
theorem get_clouds_intersecting_error (ops : GeoOps Geom) (self : LiDARHDState Geom)
    (gdf : GeoDataFrame Geom) (e : PyErr)
    (h : LiDARHD.get_clouds_intersecting ops self gdf = .error e) : e = errNotLoaded := by
  unfold LiDARHD.get_clouds_intersecting at h
  cases hdb : self.database with
  | none =>
    rw [hdb] at h
    injection h with h
    exact h.symm
  | some db =>
    rw [hdb] at h
    cases h

/-- With a loaded catalog, `_get_clouds_intersecting` succeeds. -/
theorem get_clouds_intersecting_some (ops : GeoOps Geom) (self : LiDARHDState Geom)
    (db : DB Geom) (gdf : GeoDataFrame Geom) (h : self.database = some db) :
    LiDARHD.get_clouds_intersecting ops self gdf =
      .ok (db.rows.filter (fun r =>
        ops.intersects r.geometry (ops.unionAll ((gdf.toCrs ops 2154)).geoms))) := by
  unfold LiDARHD.get_clouds_intersecting
  rw [h]

/-- Every error `download` can raise is one of the three named ones. -/
theorem download_error_cases (ops : GeoOps Geom) (self : LiDARHDState Geom)
    (gdf : GeoDataFrame Geom) (download_path : String) (e : PyErr)
    (h : LiDARHD.download ops self gdf download_path = .error e) :
    e = errInvalidArgument ∨ e = errNotLoaded ∨ e = errEmptyResult := by
  unfold LiDARHD.download at h
  split at h
  · injection h with h
    exact Or.inl h.symm
  · split at h
    · rename_i e2 heq
      injection h with h
      exact Or.inr (Or.inl (h ▸ get_clouds_intersecting_error ops self gdf e2 heq))
    · rename_i tiles heq
      split at h
      · injection h with h
        exact Or.inr (Or.inr h.symm)
      · cases h

/-- With a loaded catalog the not-loaded error cannot escape `download`. -/
theorem download_not_errNotLoaded (ops : GeoOps Geom) (self : LiDARHDState Geom)
    (gdf : GeoDataFrame Geom) (download_path : String)
    (hdb : self.database.isSome = true) :
    LiDARHD.download ops self gdf download_path ≠ .error errNotLoaded := by
  intro h
  unfold LiDARHD.download at h
  split at h
  · injection h with h
    exact absurd h (by decide)
  · split at h
    · rename_i e2 heq
      obtain ⟨db, hdb2⟩ := Option.isSome_iff_exists.mp hdb
      rw [get_clouds_intersecting_some ops self db gdf hdb2] at heq
      cases heq
    · split at h
      · injection h with h
        exact absurd h (by decide)
      · cases h

/-! The claims. -/

/-- C1: the claim says every read stage carries the well-known text of the
union of the area-of-interest geometries after reprojection into EPSG 2154.
The code instead clips with the union of the geometries of the caller in their
original frame (`gdf.union_all().wkt` on the unreprojected frame), although
the intersection test one line earlier works on the reprojected copy: on an
area of interest in frame 4326 the polygon handed to the readers differs
from the reprojected one the specification (and the surrounding code)
intends. -/
theorem C1_clip_polygon_not_reprojected :
    LiDARHD.download toyOps stW gdfC1 "out.laz" =
      .ok [Stage.read "https://x/t1.copc.laz" (downloadClipPolygon toyOps gdfC1),
           Stage.read "https://x/t2.copc.laz" (downloadClipPolygon toyOps gdfC1),
           Stage.merge, Stage.write "out.laz" "true"] ∧
    downloadClipPolygon toyOps gdfC1 = "2172 0" ∧
    specClipPolygon toyOps gdfC1 = "0 0" ∧
    downloadClipPolygon toyOps gdfC1 ≠ specClipPolygon toyOps gdfC1 :=
  ⟨rfl, rfl, rfl, by decide⟩

/-- C2: a `download` call that reaches pipeline construction with K
intersecting tiles (K at least 1) assembles exactly K read stages in tile
order, then one merge stage exactly when K exceeds 1, then one write stage
to the given output path with compression enabled: structurally equal to
`expectedPipeline`, with the stage counts that follow. -/
theorem C2_pipeline_shape (ops : GeoOps Geom) (self : LiDARHDState Geom)
    (gdf : GeoDataFrame Geom) (download_path : String) (tiles : List (Row Geom))
    (hext : strEndsWith download_path ".laz" = true)
    (htiles : LiDARHD.get_clouds_intersecting ops self gdf = .ok tiles)
    (hne : tiles ≠ []) :
    LiDARHD.download ops self gdf download_path =
      .ok (expectedPipeline ops gdf tiles download_path) ∧
    (expectedPipeline ops gdf tiles download_path).countP (fun s => s.isRead) =
      tiles.length ∧
    (expectedPipeline ops gdf tiles download_path).countP (fun s => s.isMerge) =
      (if tiles.length > 1 then 1 else 0) ∧
    (expectedPipeline ops gdf tiles download_path).countP (fun s => s.isWrite) = 1 := by
  have hemp : tiles.isEmpty = false := by simp [hne]
  refine ⟨?_, ?_, ?_, ?_⟩
  · unfold LiDARHD.download
    rw [if_neg (by simp [hext]), htiles]
    simp [hemp, expectedPipeline, List.map_map, Function.comp_def]
    by_cases h1 : 1 < tiles.length <;> simp [h1]
  · by_cases h1 : tiles.length > 1 <;>
      simp [expectedPipeline, h1, Stage.isRead, Stage.isMerge, Stage.isWrite,
        List.countP_cons, Function.comp_def]
  · by_cases h1 : tiles.length > 1 <;>
      simp [expectedPipeline, h1, Stage.isRead, Stage.isMerge, Stage.isWrite,
        List.countP_cons, Function.comp_def]
  · by_cases h1 : tiles.length > 1 <;>
      simp [expectedPipeline, h1, Stage.isRead, Stage.isMerge, Stage.isWrite,
        List.countP_cons, Function.comp_def]

/-- C2 witness: a concrete two-tile catalog produces read, read, merge,
write. -/
theorem C2_pipeline_shape_witness :
    LiDARHD.download toyOps stW gdfW "out.laz" =
      .ok (expectedPipeline toyOps gdfW [rowT1, rowT2] "out.laz") ∧
    (expectedPipeline toyOps gdfW [rowT1, rowT2] "out.laz").countP
      (fun s => s.isRead) = 2 ∧
    (expectedPipeline toyOps gdfW [rowT1, rowT2] "out.laz").countP
      (fun s => s.isMerge) = 1 ∧
    (expectedPipeline toyOps gdfW [rowT1, rowT2] "out.laz").countP
      (fun s => s.isWrite) = 1 := by
  have h := C2_pipeline_shape toyOps stW gdfW "out.laz" [rowT1, rowT2]
    (by decide) (by rfl) (by simp)
  exact ⟨h.1, h.2.1, h.2.2.1, h.2.2.2⟩

/-- C3: any run of the catalog build (no reusable catalog, or overwrite set)
persists the concatenation of all non-absent pages (with the derived block
identifier added and the service identifier dropped, `builtDB`) to the dated
file when at least one page returned data, and fails — the unconditional
`db.to_file` hits an unbound local — exactly when every page fetch came back
absent. -/
theorem C3_catalog_build_complete_iff_any_page (fs : FS Geom) (overwrite : Bool)
    (today : String) (pageResults : List (Option (List (RawRow Geom))))
    (hbuild : LiDARHD.check_database fs = false ∨ overwrite = true) :
    ((∃ c ∈ pageResults, c ≠ none) →
      LiDARHD.download_database fs overwrite today pageResults =
        .ok { fs := writeFile fs (dbFileName today) (builtDB pageResults),
              path := LiDARHD.get_database_path
                (writeFile fs (dbFileName today) (builtDB pageResults)),
              fetches := pageResults.length } ∧
      readFileContent (writeFile fs (dbFileName today) (builtDB pageResults))
          (dbFileName today) = some (builtDB pageResults)) ∧
    ((∀ c ∈ pageResults, c = none) →
      LiDARHD.download_database fs overwrite today pageResults =
        .error (PyErr.nameError "db")) := by
  have hcond : (LiDARHD.check_database fs && !overwrite) = false := by
    rcases hbuild with h | h <;> simp [h]
  constructor
  · intro hsome
    have hchunks : pageResults.filterMap id ≠ [] := by
      rw [Ne, List.filterMap_eq_nil_iff]
      push_neg
      obtain ⟨c, hc1, hc2⟩ := hsome
      exact ⟨c, hc1, hc2⟩
    exact ⟨download_database_build fs overwrite today pageResults hcond hchunks,
      readFileContent_writeFile _ _ _⟩
  · intro hall
    have hchunks : pageResults.filterMap id = [] := by
      rw [List.filterMap_eq_nil_iff]
      intro a ha
      exact hall a ha
    unfold LiDARHD.download_database
    rw [if_neg (by simp [hcond]), if_pos (by simp [List.isEmpty_iff, hchunks])]

/-- C3 witness: on an empty folder, one present page and one absent page
build and persist the one-page catalog. -/
theorem C3_catalog_build_witness :
    LiDARHD.download_database ([] : FS ToyGeom) false "2025-06-15"
        [some [rawNew], none] =
      .ok { fs := writeFile [] (dbFileName "2025-06-15")
              (builtDB [some [rawNew], none]),
            path := LiDARHD.get_database_path (writeFile []
              (dbFileName "2025-06-15") (builtDB [some [rawNew], none])),
            fetches := 2 } ∧
    readFileContent (writeFile [] (dbFileName "2025-06-15")
        (builtDB [some [rawNew], none])) (dbFileName "2025-06-15") =
      some (builtDB [some [rawNew], none]) :=
  (C3_catalog_build_complete_iff_any_page ([] : FS ToyGeom) false "2025-06-15"
    [some [rawNew], none] (Or.inl rfl)) |>.1 ⟨some [rawNew], by simp, by simp⟩

/-- C4 counterexample: two different causes — a bad output extension and an
empty intersection — surface as two different error values of the same
Python kind `ValueError`, so a caller cannot branch on the cause by the
kind of the error alone. -/
theorem C4_kind_collision :
    LiDARHD.download toyOps stW gdfW "out.txt" = .error errInvalidArgument ∧
    LiDARHD.download toyOps stW gdfFar "out.laz" = .error errEmptyResult ∧
    errInvalidArgument ≠ errEmptyResult ∧
    PyErr.kind errInvalidArgument = PyErr.kind errEmptyResult :=
  ⟨rfl, rfl, by decide, rfl⟩

/-- C4 amended: every failure `download` raises is one of the three named
error values (not-loaded, invalid-argument, empty-result), which are
pairwise distinct — but all three share the generic kind `ValueError` and
are distinguishable only by message, while only the missing-file failure
carries its own kind `FileNotFoundError`. -/
theorem C4_named_failures_amended (ops : GeoOps Geom) (self : LiDARHDState Geom)
    (gdf : GeoDataFrame Geom) (download_path : String) (e : PyErr)
    (h : LiDARHD.download ops self gdf download_path = .error e) :
    (e = errInvalidArgument ∨ e = errNotLoaded ∨ e = errEmptyResult) ∧
    e.kind = "ValueError" ∧
    (∀ p, (errNotFound p).kind = "FileNotFoundError") ∧
    errInvalidArgument ≠ errNotLoaded ∧ errInvalidArgument ≠ errEmptyResult ∧
    errNotLoaded ≠ errEmptyResult := by
  have hcase := download_error_cases ops self gdf download_path e h
  refine ⟨hcase, ?_, fun p => rfl, by decide, by decide, by decide⟩
  rcases hcase with h1 | h1 | h1 <;> rw [h1] <;> rfl

/-- C4 witness: the amended statement at a concrete failing call. -/
theorem C4_named_failures_witness :
    (errInvalidArgument = errInvalidArgument ∨ errInvalidArgument = errNotLoaded ∨
      errInvalidArgument = errEmptyResult) ∧
    PyErr.kind errInvalidArgument = "ValueError" :=
  ⟨(C4_named_failures_amended toyOps stW gdfW "out.txt" errInvalidArgument rfl).1,
   (C4_named_failures_amended toyOps stW gdfW "out.txt" errInvalidArgument rfl).2.1⟩

/-- C5: `download` fails with the invalid-argument error for every output
path not ending in `.laz`, and fails with the empty-result error — before
any pipeline description is produced — for every area of interest whose
reprojected union meets no catalog tile. -/
theorem C5_invalid_extension_and_empty_result (ops : GeoOps Geom)
    (self : LiDARHDState Geom) (gdf : GeoDataFrame Geom) (download_path : String) :
    (strEndsWith download_path ".laz" = false →
      LiDARHD.download ops self gdf download_path = .error errInvalidArgument) ∧
    (∀ db, self.database = some db →
      (∀ r ∈ db.rows,
        ops.intersects r.geometry (ops.unionAll ((gdf.toCrs ops 2154)).geoms) = false) →
      strEndsWith download_path ".laz" = true →
      LiDARHD.download ops self gdf download_path = .error errEmptyResult ∧
      ∀ pl, LiDARHD.download ops self gdf download_path ≠ .ok pl) := by
  constructor
  · intro hext
    unfold LiDARHD.download
    rw [if_pos hext]
  · intro db hdb hdisj hext
    have hmain : LiDARHD.download ops self gdf download_path = .error errEmptyResult := by
      unfold LiDARHD.download
      rw [if_neg (by simp [hext]), get_clouds_intersecting_some ops self db gdf hdb]
      have hfil : db.rows.filter (fun r =>
          ops.intersects r.geometry (ops.unionAll ((gdf.toCrs ops 2154)).geoms)) = [] := by
        rw [List.filter_eq_nil_iff]
        intro r hr
        simp [hdisj r hr]
      rw [hfil]
      rfl
    refine ⟨hmain, fun pl hpl => ?_⟩
    rw [hmain] at hpl
    cases hpl

/-- C5 witness: a concrete bad extension and a concrete disjoint area of
interest. -/
theorem C5_witness :
    LiDARHD.download toyOps stW gdfW "out.txt" = .error errInvalidArgument ∧
    LiDARHD.download toyOps stW gdfFar "out.laz" = .error errEmptyResult :=
  ⟨(C5_invalid_extension_and_empty_result toyOps stW gdfW "out.txt").1 (by decide),
   ((C5_invalid_extension_and_empty_result toyOps stW gdfFar "out.laz").2 dbW rfl
     (by decide) (by decide)).1⟩

/-- C6: on a loaded catalog the intersection query succeeds and returns
exactly the rows whose geometry intersects the union of the reprojected area
of interest: the result is a sublist of the catalog rows (original order,
rows carried whole with all their attributes), every returned row
intersects the union, and every intersecting row is returned. -/
theorem C6_intersection_exact_filter (ops : GeoOps Geom) (self : LiDARHDState Geom)
    (db : DB Geom) (gdf : GeoDataFrame Geom) (h : self.database = some db) :
    ∃ tiles, LiDARHD.get_clouds_intersecting ops self gdf = .ok tiles ∧
      tiles.Sublist db.rows ∧
      ∀ r, r ∈ tiles ↔ r ∈ db.rows ∧
        ops.intersects r.geometry (ops.unionAll ((gdf.toCrs ops 2154)).geoms) = true := by
  refine ⟨db.rows.filter (fun r =>
    ops.intersects r.geometry (ops.unionAll ((gdf.toCrs ops 2154)).geoms)),
    get_clouds_intersecting_some ops self db gdf h, List.filter_sublist db.rows, ?_⟩
  intro r
  simp [List.mem_filter]

/-- C6 witness: on the two-tile catalog both rows intersect and both are
returned, in order. -/
theorem C6_witness :
    LiDARHD.get_clouds_intersecting toyOps stW gdfW = .ok [rowT1, rowT2] ∧
    [rowT1, rowT2].Sublist dbW.rows ∧
    (rowT1 ∈ [rowT1, rowT2] ↔ rowT1 ∈ dbW.rows ∧
      toyOps.intersects rowT1.geometry
        (toyOps.unionAll ((gdfW.toCrs toyOps 2154)).geoms) = true) := by
  obtain ⟨tiles, h1, h2, h3⟩ := C6_intersection_exact_filter toyOps stW dbW gdfW rfl
  have h4 : tiles = [rowT1, rowT2] :=
    Except.ok.inj (h1.symm.trans
      (rfl : LiDARHD.get_clouds_intersecting toyOps stW gdfW = .ok [rowT1, rowT2]))
  subst h4
  exact ⟨h1, h2, h3 rowT1⟩

/-- C7 counterexample: with an older dated catalog file already on disk,
`overwrite = true` builds and persists the fresh catalog under the current
date, but the constructor then loads the first glob match — the stale
2025-01-01 file — so the catalog held afterwards is not the newly built
one. -/
theorem C7_overwrite_loads_stale_file :
    LiDARHD.init toyOps fs0 true "2025-06-15" [some [rawNew]] =
      .ok ({ database_path := some "LidarHD_tiles_database_2025-01-01.gpkg",
             database := some (dbToCrs toyOps oldDb 2154) },
           fs0 ++ [(dbFileName "2025-06-15", builtDB [some [rawNew]])]) ∧
    readFileContent (fs0 ++ [(dbFileName "2025-06-15", builtDB [some [rawNew]])])
        (dbFileName "2025-06-15") = some (builtDB [some [rawNew]]) ∧
    dbToCrs toyOps oldDb 2154 ≠ dbToCrs toyOps (builtDB [some [rawNew]]) 2154 :=
  ⟨rfl, rfl, by decide⟩

/-- C7 amended: resolution with `overwrite = true` and an existing catalog
always rebuilds from the page fetches and persists the result to the file
named with the current date (overwriting that file in place if it already
exists); the path it returns for loading is the first glob match of the
resulting folder, so the catalog subsequently loaded is the newly built one
exactly when that first match is the just-written dated file. -/
theorem C7_overwrite_amended (ops : GeoOps Geom) (fs : FS Geom) (today : String)
    (pageResults : List (Option (List (RawRow Geom))))
    (hpresent : LiDARHD.check_database fs = true)
    (hsome : ∃ c ∈ pageResults, c ≠ none) :
    LiDARHD.download_database fs true today pageResults =
      .ok { fs := writeFile fs (dbFileName today) (builtDB pageResults),
            path := LiDARHD.get_database_path
              (writeFile fs (dbFileName today) (builtDB pageResults)),
            fetches := pageResults.length } ∧
    readFileContent (writeFile fs (dbFileName today) (builtDB pageResults))
        (dbFileName today) = some (builtDB pageResults) ∧
    (LiDARHD.get_database_path (writeFile fs (dbFileName today) (builtDB pageResults)) =
        some (dbFileName today) →
      LiDARHD.read_database ops (writeFile fs (dbFileName today) (builtDB pageResults))
          (some (dbFileName today)) =
        .ok (dbToCrs ops (builtDB pageResults) 2154)) := by
  have hchunks : pageResults.filterMap id ≠ [] := by
    rw [Ne, List.filterMap_eq_nil_iff]
    push_neg
    obtain ⟨c, hc1, hc2⟩ := hsome
    exact ⟨c, hc1, hc2⟩
  refine ⟨download_database_build fs true today pageResults (by simp) hchunks,
    readFileContent_writeFile _ _ _, fun _ => ?_⟩
  show LiDARHD.load_database_file ops
    (writeFile fs (dbFileName today) (builtDB pageResults)) (dbFileName today) = _
  exact load_database_file_some ops _ _ _ (readFileContent_writeFile _ _ _)

/-- C7 amended witness: when the only existing dated file carries the current date, the
rebuild overwrites it in place and the loaded catalog is the new one. -/
theorem C7_overwrite_amended_witness :
    LiDARHD.download_database [(dbFileName "2025-06-15", oldDb)] true "2025-06-15"
        [some [rawNew]] =
      .ok { fs := writeFile [(dbFileName "2025-06-15", oldDb)]
              (dbFileName "2025-06-15") (builtDB [some [rawNew]]),
            path := LiDARHD.get_database_path (writeFile
              [(dbFileName "2025-06-15", oldDb)] (dbFileName "2025-06-15")
              (builtDB [some [rawNew]])),
            fetches := 1 } ∧
    LiDARHD.read_database toyOps (writeFile [(dbFileName "2025-06-15", oldDb)]
        (dbFileName "2025-06-15") (builtDB [some [rawNew]]))
        (some (dbFileName "2025-06-15")) =
      .ok (dbToCrs toyOps (builtDB [some [rawNew]]) 2154) := by
  have h := C7_overwrite_amended toyOps [(dbFileName "2025-06-15", oldDb)]
    "2025-06-15" [some [rawNew]] rfl ⟨some [rawNew], by simp, by simp⟩
  exact ⟨h.1, h.2.2 rfl⟩

/-- C8: with a catalog file present and `overwrite = false`, resolution is
idempotent and fetch-free: whatever page results would have been fetched (on
either call), it submits zero page fetches, leaves the folder unchanged,
returns the path of the existing file both times, and the catalog loaded from
that path is the content of the existing file (reprojected on load). -/
theorem C8_resolve_idempotent_no_fetch (ops : GeoOps Geom) (fs : FS Geom)
    (today today2 : String) (pr pr2 : List (Option (List (RawRow Geom))))
    (hpresent : LiDARHD.check_database fs = true) :
    ∃ p db, LiDARHD.get_database_path fs = some p ∧
      readFileContent fs p = some db ∧
      LiDARHD.download_database fs false today pr =
        .ok { fs := fs, path := some p, fetches := 0 } ∧
      LiDARHD.download_database fs false today2 pr2 =
        .ok { fs := fs, path := some p, fetches := 0 } ∧
      LiDARHD.read_database ops fs (some p) = .ok (dbToCrs ops db 2154) := by
  have hp0 : (LiDARHD.get_database_path fs).isSome = true := hpresent
  obtain ⟨p, hp⟩ := Option.isSome_iff_exists.mp hp0
  obtain ⟨db, hdb⟩ := get_database_path_readable fs p hp
  have hreuse : ∀ today3 (pr3 : List (Option (List (RawRow Geom)))),
      LiDARHD.download_database fs false today3 pr3 =
        .ok { fs := fs, path := some p, fetches := 0 } := by
    intro today3 pr3
    unfold LiDARHD.download_database
    rw [if_pos (by simp [hpresent]), hp]
  refine ⟨p, db, hp, hdb, hreuse today pr, hreuse today2 pr2, ?_⟩
  show LiDARHD.load_database_file ops fs p = _
  exact load_database_file_some ops fs p db hdb

/-- C8 witness: the folder with the 2025-01-01 catalog is reused untouched,
twice, with zero fetches. -/
theorem C8_witness :
    LiDARHD.download_database fs0 false "2025-06-15" [some [rawNew]] =
      .ok { fs := fs0, path := some "LidarHD_tiles_database_2025-01-01.gpkg",
            fetches := 0 } ∧
    LiDARHD.read_database toyOps fs0
        (some "LidarHD_tiles_database_2025-01-01.gpkg") =
      .ok (dbToCrs toyOps oldDb 2154) := by
  obtain ⟨p, db, hp, hdb, h1, h2, h3⟩ := C8_resolve_idempotent_no_fetch toyOps fs0
    "2025-06-15" "2025-06-16" [some [rawNew]] [] rfl
  have hpe : p = "LidarHD_tiles_database_2025-01-01.gpkg" :=
    (Option.some.inj ((rfl : LiDARHD.get_database_path fs0 =
      some "LidarHD_tiles_database_2025-01-01.gpkg").symm.trans hp)).symm
  subst hpe
  have hde : db = oldDb :=
    (Option.some.inj ((rfl : readFileContent fs0
      "LidarHD_tiles_database_2025-01-01.gpkg" = some oldDb).symm.trans hdb)).symm
  subst hde
  exact ⟨h1, h3⟩

/-- C9: for every network, base URL, page size and start offset,
`fetch_chunk` returns either a non-empty collection or absent, and any
request failure yields absent rather than an error. -/
theorem C9_fetch_chunk_absent_or_nonempty (net : String → Except String (List (RawRow Geom)))
    (url : String) (ntiles start_index : Int) :
    (fetch_chunk net url ntiles start_index = none ∨
      ∃ g, fetch_chunk net url ntiles start_index = some g ∧ g ≠ []) ∧
    (∀ e, net (fetchUrl url ntiles start_index) = .error e →
      fetch_chunk net url ntiles start_index = none) := by
  constructor
  · cases hnet : net (fetchUrl url ntiles start_index) with
    | error e =>
      left
      unfold fetch_chunk
      rw [hnet]
    | ok gdf =>
      by_cases hemp : gdf.isEmpty = true
      · left
        unfold fetch_chunk
        rw [hnet]
        show (if gdf.isEmpty = true then none else some gdf) = none
        rw [if_pos hemp]
      · right
        refine ⟨gdf, ?_, by simpa using hemp⟩
        unfold fetch_chunk
        rw [hnet]
        show (if gdf.isEmpty = true then none else some gdf) = some gdf
        rw [if_neg hemp]
  · intro e he
    unfold fetch_chunk
    rw [he]

/-- C9 witness: a failing request at a concrete offset yields absent. -/
theorem C9_witness :
    fetch_chunk (fun _ => (Except.error "network error" :
        Except String (List (RawRow ToyGeom)))) URL_LHD 5000 0 = none :=
  (C9_fetch_chunk_absent_or_nonempty
    (fun _ => (Except.error "network error" : Except String (List (RawRow ToyGeom))))
    URL_LHD 5000 0).2 "network error" rfl

/-- C10: whenever the constructor completes successfully the held catalog is
a loaded (non-absent) value, and consequently no `download` call on the
constructed object can raise the not-loaded error of the intersection
query. -/
theorem C10_database_loaded_after_init (ops : GeoOps Geom) (fs : FS Geom)
    (overwrite : Bool) (today : String)
    (pageResults : List (Option (List (RawRow Geom))))
    (res : LiDARHDState Geom × FS Geom)
    (h : LiDARHD.init ops fs overwrite today pageResults = .ok res) :
    res.1.database.isSome = true ∧
    ∀ gdf download_path,
      LiDARHD.download ops res.1 gdf download_path ≠ .error errNotLoaded := by
  unfold LiDARHD.init at h
  split at h
  · cases h
  · split at h
    · cases h
    · injection h with h
      subst h
      exact ⟨rfl, fun gdf download_path =>
        download_not_errNotLoaded ops _ gdf download_path rfl⟩

/-- C10 witness: a concrete successful construction holds a loaded catalog,
and a download over it cannot raise the not-loaded error. -/
theorem C10_witness :
    stC10.1.database.isSome = true ∧
    LiDARHD.download toyOps stC10.1 gdfFar "out.laz" ≠ .error errNotLoaded :=
  ⟨(C10_database_loaded_after_init toyOps fs0 false "2025-06-15" [] stC10 rfl).1,
   (C10_database_loaded_after_init toyOps fs0 false "2025-06-15" [] stC10 rfl).2
     gdfFar "out.laz"⟩

end Lhd
